import Mathlib

/-!
Shallow embedding of the AutoSpotting core (`core/instance.go`) and proofs
about it.

Conventions used throughout:
- Go `float64`/`float32` values (prices, memory, throughput) are modelled as `ℚ`.
  Every property proved here concerns only comparisons and the algebraic shape
  of the arithmetic, mirroring the expressions in the source.
- Go `int`/`int64` values are modelled as `ℤ`.
- Go pointers that may be nil are modelled as `Option`.
- A Go nil-pointer dereference (a panic) is modelled by functions returning
  `Option` with `none` for the panic, where relevant.
- Go maps are modelled as association lists; a lookup of a missing key yields
  the zero value, as in Go.
- Functions keep the names of the Go functions they embed where Lean allows it
  (`instance` is a Lean keyword, so the `instance` struct becomes `Instance`).
- String literals in error messages avoid punctuation that the Go source uses
  (for example `cant`); only the presence and distinctness of the
  errors matter for the properties proved here.
-/

/-- Lexicographic comparison of char lists; models Go byte-wise string `<=`
used by `sort.Strings`. -/
def charListLe : List Char → List Char → Bool
  | [], _ => true
  | _ :: _, [] => false
  | a :: as, b :: bs => if a < b then true else if b < a then false else charListLe as bs

/-- String comparison, models Go `<=` on strings. -/
def strLe (a b : String) : Bool := charListLe a.toList b.toList

/-- Models Go `strings.Contains`. -/
def strContains (s sub : String) : Bool := decide (sub.toList <:+: s.toList)

/-- Models Go `strings.HasPrefix`. -/
def strStartsWith (s p : String) : Bool := p.toList.isPrefixOf s.toList

/-- Models Go `min` from `core/instance.go` (lines 1151-1156). -/
def goMin (x y : ℤ) : ℤ := if x < y then x else y

/-- Models Go `max` from `core/instance.go` (lines 1157-1162). -/
def goMax (x y : ℤ) : ℤ := if x > y then x else y

/-- Insert a string into a sorted list, auxiliary for `sortStrings`. -/
def insertSorted (s : String) : List String → List String
  | [] => [s]
  | x :: xs => if strLe s x then s :: x :: xs else x :: insertSorted s xs

/-- Models Go `sort.Strings`: the keys of a Go map are distinct, so the
ascending permutation produced by `sort.Strings` is unique and insertion sort
computes it. -/
def sortStrings (l : List String) : List String := l.foldr insertSorted []

/-- The `prices` bundle attached to an instance type (`core/instance_type.go`
shape as used by `core/instance.go`): on-demand price, per-AZ spot prices,
EBS surcharge and premium. The spot map is an association list AZ → price;
a missing AZ yields 0 like a Go map read. -/
structure prices where
  onDemand : ℚ
  spot : List (String × ℚ)
  ebsSurcharge : ℚ
  premium : ℚ
deriving DecidableEq

/-- Go map read `pricing.spot[az]`: zero value for a missing key. -/
def prices.spotAt (p : prices) (az : String) : ℚ := (p.spot.lookup az).getD 0

/-- Embeds `instanceTypeInformation` (`core/instance.go` lines 130-144). -/
structure instanceTypeInformation where
  instanceType : String
  vCPU : ℤ
  PhysicalProcessor : String
  GPU : ℤ
  pricing : prices
  memory : ℚ
  virtualizationTypes : List String
  hasInstanceStore : Bool
  instanceStoreDeviceSize : ℚ
  instanceStoreDeviceCount : ℤ
  instanceStoreIsSSD : Bool
  hasEBSOptimization : Bool
  EBSThroughput : ℚ
deriving DecidableEq

/-- The Go zero value of `instanceTypeInformation`, produced by reading a
missing key from the region instance type map. -/
def zeroInstanceTypeInformation : instanceTypeInformation where
  instanceType := ""
  vCPU := 0
  PhysicalProcessor := ""
  GPU := 0
  pricing := { onDemand := 0, spot := [], ebsSurcharge := 0, premium := 0 }
  memory := 0
  virtualizationTypes := []
  hasInstanceStore := false
  instanceStoreDeviceSize := 0
  instanceStoreDeviceCount := 0
  instanceStoreIsSSD := false
  hasEBSOptimization := false
  EBSThroughput := 0

/-- An EC2 tag (key and value; the Go `*string` fields are dereferenced
wherever the embedded code reads them). -/
structure Tag where
  key : String
  value : String
deriving DecidableEq

/-- Embeds the fields of the `instance` struct (`core/instance.go` lines
115-123 plus the embedded `ec2.Instance` fields the embedded functions read).
`availabilityZone` stands for `Placement.AvailabilityZone`, `stateName` for
`State.Name`. `instance` is a Lean keyword, hence the capital letter. -/
structure Instance where
  InstanceId : String
  availabilityZone : String
  EbsOptimized : Option Bool
  stateName : String
  VirtualizationType : String
  Tags : List Tag
  typeInfo : instanceTypeInformation
  price : ℚ
deriving DecidableEq

/-- Embeds `calculatePrice` (`core/instance.go` lines 146-158): spot price of
the candidate in the instance availability zone, plus the candidate EBS
surcharge when the instance is EBS-optimized. -/
def Instance.calculatePrice (i : Instance) (spotCandidate : instanceTypeInformation) : ℚ :=
  let spotPrice := spotCandidate.pricing.spotAt i.availabilityZone
  if i.EbsOptimized = some true then spotPrice + spotCandidate.pricing.ebsSurcharge
  else spotPrice

/-- Embeds `isPriceCompatible` (`core/instance.go` lines 296-308). -/
def Instance.isPriceCompatible (i : Instance) (spotPrice : ℚ) : Bool :=
  if spotPrice = 0 then false
  else if spotPrice ≤ i.price then true
  else false

/-- Embeds `isIntel` (`core/instance.go` lines 347-350). -/
def isIntel (cpuName : String) : Bool :=
  strContains cpuName "Intel" || strContains cpuName "Variable"

/-- Embeds `isAMD` (`core/instance.go` lines 352-354). -/
def isAMD (cpuName : String) : Bool := strContains cpuName "AMD"

/-- Embeds `isIntelCompatible` (`core/instance.go` lines 343-345). -/
def isIntelCompatible (cpuName : String) : Bool := isIntel cpuName || isAMD cpuName

/-- Embeds `isARM` (`core/instance.go` lines 356-359). -/
def isARM (cpuName : String) : Bool := strContains cpuName "AWS"

/-- Embeds `isSameArch` (`core/instance.go` lines 329-341). -/
def Instance.isSameArch (i : Instance) (other : instanceTypeInformation) : Bool :=
  (isIntelCompatible i.typeInfo.PhysicalProcessor && isIntelCompatible other.PhysicalProcessor) ||
  (isARM i.typeInfo.PhysicalProcessor && isARM other.PhysicalProcessor)

/-- Embeds `isClassCompatible` (`core/instance.go` lines 310-327). -/
def Instance.isClassCompatible (i : Instance) (spotCandidate : instanceTypeInformation) : Bool :=
  i.isSameArch spotCandidate &&
  decide (spotCandidate.vCPU ≥ i.typeInfo.vCPU) &&
  decide (spotCandidate.memory ≥ i.typeInfo.memory) &&
  decide (spotCandidate.GPU ≥ i.typeInfo.GPU)

/-- Embeds `isEBSCompatible` (`core/instance.go` lines 361-367). -/
def Instance.isEBSCompatible (i : Instance) (spotCandidate : instanceTypeInformation) : Bool :=
  !decide (spotCandidate.EBSThroughput < i.typeInfo.EBSThroughput)

/-- Embeds `isStorageCompatible` (`core/instance.go` lines 377-399). -/
def Instance.isStorageCompatible (i : Instance) (spotCandidate : instanceTypeInformation)
    (attachedVolumes : ℤ) : Bool :=
  decide (attachedVolumes = 0) ||
  (decide (spotCandidate.instanceStoreDeviceCount ≥ attachedVolumes) &&
   decide (spotCandidate.instanceStoreDeviceSize ≥ i.typeInfo.instanceStoreDeviceSize) &&
   (spotCandidate.instanceStoreIsSSD ||
    spotCandidate.instanceStoreIsSSD == i.typeInfo.instanceStoreIsSSD))

/-- Embeds `isVirtualizationCompatible` (`core/instance.go` lines 401-418). -/
def Instance.isVirtualizationCompatible (i : Instance) (spotVirtualizationTypes : List String) : Bool :=
  let vts := if spotVirtualizationTypes.isEmpty then ["HVM"] else spotVirtualizationTypes
  vts.any fun avt =>
    (avt == "PV" && i.VirtualizationType == "paravirtual") ||
    (avt == "HVM" && i.VirtualizationType == "hvm")

/-- Embeds `isAllowed` (`core/instance.go` lines 420-441). The glob matcher
`filepath.Match` is Go standard library code, passed in as a parameter. -/
def isAllowed (globMatch : String → String → Bool) (instanceType : String)
    (allowedList disallowedList : List String) : Bool :=
  if allowedList.length > 0 then allowedList.any fun a => globMatch a instanceType
  else if disallowedList.length > 0 then !(disallowedList.any fun a => globMatch a instanceType)
  else true

/-- The acceptance condition of the candidate loop in
`getCompatibleSpotInstanceTypesListSortedAscendingByPrice`
(`core/instance.go` lines 496-501). -/
def acceptsCandidate (globMatch : String → String → Bool) (i : Instance)
    (allowedList disallowedList : List String) (attachedVolumesNumber : ℤ)
    (candidate : instanceTypeInformation) : Bool :=
  isAllowed globMatch candidate.instanceType allowedList disallowedList &&
  i.isPriceCompatible (i.calculatePrice candidate) &&
  i.isEBSCompatible candidate &&
  i.isClassCompatible candidate &&
  i.isStorageCompatible candidate attachedVolumesNumber &&
  i.isVirtualizationCompatible candidate.virtualizationTypes

/-- Embeds `acceptableInstance` (`core/instance.go` lines 125-128). -/
structure acceptableInstance where
  instanceTI : instanceTypeInformation
  price : ℚ
deriving DecidableEq

/-- Go map read `i.region.instanceTypeInformation[k]`: the zero value for a
missing key. The region catalog is an association list type name → info. -/
def lookupTypeInfo (catalog : List (String × instanceTypeInformation)) (k : String) :
    instanceTypeInformation :=
  (catalog.lookup k).getD zeroInstanceTypeInformation

/-- Embeds the computation of `attachedVolumesNumber`
(`core/instance.go` lines 471-474); the ephemeral-volume counts of the launch
configuration and launch template are computed by code outside
`core/instance.go` and are taken as inputs. -/
def attachedVolumesNumber (i : Instance) (lcMappings ltMappings : ℤ) : ℤ :=
  goMin (goMax lcMappings ltMappings) i.typeInfo.instanceStoreDeviceCount

/-- The accepted-candidate list built by the loop of
`getCompatibleSpotInstanceTypesListSortedAscendingByPrice`
(`core/instance.go` lines 477-507): iterate the catalog keys in ascending
order and keep each accepted candidate paired with its computed price. -/
def acceptedCandidates (globMatch : String → String → Bool) (i : Instance)
    (allowedList disallowedList : List String) (lcMappings ltMappings : ℤ)
    (catalog : List (String × instanceTypeInformation)) : List acceptableInstance :=
  (sortStrings (catalog.map Prod.fst)).filterMap fun k =>
    let candidate := lookupTypeInfo catalog k
    if acceptsCandidate globMatch i allowedList disallowedList
        (attachedVolumesNumber i lcMappings ltMappings) candidate then
      some ⟨candidate, i.calculatePrice candidate⟩
    else none

/-- The contract of Go `sort.Slice` with the comparator
`acceptableInstanceTypes[i].price < acceptableInstanceTypes[j].price`
(`core/instance.go` lines 510-512): the output is a permutation of the input
that is non-decreasing in `price`. `sort.Slice` is documented as not stable,
so any such permutation is a permitted outcome. -/
def SortSlicePermitted (input output : List acceptableInstance) : Prop :=
  input.Perm output ∧ output.Pairwise fun a b => a.price ≤ b.price

/-- The input/output relation of
`getCompatibleSpotInstanceTypesListSortedAscendingByPrice`
(`core/instance.go` lines 462-523): if no candidate was accepted the function
returns an error; otherwise it returns the accepted candidates sorted by
`sort.Slice` (modelled relationally by `SortSlicePermitted`), projected to
their type information. -/
def getCompatibleResult (globMatch : String → String → Bool) (i : Instance)
    (allowedList disallowedList : List String) (lcMappings ltMappings : ℤ)
    (catalog : List (String × instanceTypeInformation))
    (result : Except String (List instanceTypeInformation)) : Prop :=
  if (acceptedCandidates globMatch i allowedList disallowedList lcMappings ltMappings
      catalog).isEmpty then
    result = Except.error "no cheaper spot instance types could be found"
  else
    ∃ sorted, SortSlicePermitted
        (acceptedCandidates globMatch i allowedList disallowedList lcMappings ltMappings catalog)
        sorted ∧
      result = Except.ok (sorted.map fun a => a.instanceTI)

/-- Modelled from the spec: the constant `DefaultBiddingPolicy` is declared
outside `core/instance.go`; per §4.4 and §6 of the spec the default policy is
`normal` (the other recognized value being `aggressive`). -/
def DefaultBiddingPolicy : String := "normal"

/-- Embeds `getPriceToBid` (`core/instance.go` lines 579-593). The bidding
policy and buffer percentage come from the region configuration and are taken
as inputs. -/
def getPriceToBid (biddingPolicy : String) (spotPriceBufferPercentage : ℚ)
    (baseOnDemandPrice currentSpotPrice spotPremium : ℚ) : ℚ :=
  if biddingPolicy = DefaultBiddingPolicy then baseOnDemandPrice
  else
    min baseOnDemandPrice
      ((currentSpotPrice - spotPremium) * (1 + spotPriceBufferPercentage / 100) + spotPremium)

/-- Embeds `unsupportedIO2Regions` (`core/instance.go` lines 24-34). -/
def unsupportedIO2Regions : List String :=
  ["us-gov-west-1", "us-gov-east-1", "sa-east-1", "cn-north-1", "cn-northwest-1",
   "eu-south-1", "af-south-1", "eu-west-3", "ap-northeast-3"]

/-- Embeds `supportedIO2region` (`core/instance.go` lines 769-777). -/
def supportedIO2region (region : String) : Bool :=
  !(unsupportedIO2Regions.any fun r => region == r)

/-- Embeds `convertLaunchConfigurationEBSVolumeType`
(`core/instance.go` lines 709-731). The inputs are the fields the function
reads: the mapping volume type and size (Go `*string` / `*int64`), the region
name and the group GP2 conversion threshold. The outer `Option` is `none`
when the Go code dereferences a nil pointer (panic); `some vt` is the
returned `*string`. This variant nil-checks `ebs.VolumeType` first. -/
def convertLaunchConfigurationEBSVolumeType (volumeType : Option String)
    (volumeSize : Option ℤ) (regionName : String) (gp2ConversionThreshold : ℤ) :
    Option (Option String) :=
  match volumeType with
  | none => some none
  | some vt =>
    if vt == "io1" && supportedIO2region regionName then some (some "io2")
    else if vt == "gp2" then
      match volumeSize with
      | none => none
      | some sz => if sz ≤ gp2ConversionThreshold then some (some "gp3") else some (some vt)
    else some (some vt)

/-- Embeds `convertLaunchTemplateEBSVolumeType`
(`core/instance.go` lines 733-749). Unlike the launch configuration variant it
dereferences `ebs.VolumeType` without a nil check, so a missing volume type is
a panic (outer `none`). -/
def convertLaunchTemplateEBSVolumeType (volumeType : Option String)
    (volumeSize : Option ℤ) (regionName : String) (gp2ConversionThreshold : ℤ) :
    Option (Option String) :=
  match volumeType with
  | none => none
  | some vt =>
    if vt == "io1" && supportedIO2region regionName then some (some "io2")
    else if vt == "gp2" then
      match volumeSize with
      | none => none
      | some sz => if sz ≤ gp2ConversionThreshold then some (some "gp3") else some (some vt)
    else some (some vt)

/-- Embeds `convertImageEBSVolumeType` (`core/instance.go` lines 751-767);
its body is identical to the launch template variant, including the unchecked
dereference of `ebs.VolumeType`. -/
def convertImageEBSVolumeType (volumeType : Option String)
    (volumeSize : Option ℤ) (regionName : String) (gp2ConversionThreshold : ℤ) :
    Option (Option String) :=
  match volumeType with
  | none => none
  | some vt =>
    if vt == "io1" && supportedIO2region regionName then some (some "io2")
    else if vt == "gp2" then
      match volumeSize with
      | none => none
      | some sz => if sz ≤ gp2ConversionThreshold then some (some "gp3") else some (some vt)
    else some (some vt)

/-- Embeds `canTerminate` (`core/instance.go` lines 218-221); the AWS SDK
constants `ec2.InstanceStateNameTerminated` and
`ec2.InstanceStateNameShuttingDown` are the strings `terminated` and
`shutting-down`. -/
def canTerminate (i : Instance) : Bool :=
  !(i.stateName == "terminated") && !(i.stateName == "shutting-down")

/-- Embeds `terminate` (`core/instance.go` lines 223-245). The first
component is the list of instance ids passed to cloud `TerminateInstances`
calls (the trace); the second is the returned error. The error value of the
cloud call itself is an input. -/
def terminate (i : Instance) (terminateInstancesError : Option String) :
    List String × Option String :=
  if !(canTerminate i) then ([], some ("cant terminate " ++ i.InstanceId))
  else ([i.InstanceId], terminateInstancesError)

/-- The catalog of `instanceManager` (`core/instance.go` lines 36-43):
a map instance id → instance, modelled as an association list with Go map
update semantics. -/
abbrev instanceMap := List (String × Instance)

/-- Go map assignment `catalog[id] = inst`: replace the binding if present,
otherwise append a new one. -/
def instanceMapAssign (m : instanceMap) (id : String) (inst : Instance) : instanceMap :=
  if (m.lookup id).isSome then m.map fun p => if p.1 = id then (id, inst) else p
  else m ++ [(id, inst)]

/-- Embeds `instanceManager.add` (`core/instance.go` lines 74-82): a nil
argument returns immediately, otherwise the catalog is updated at the
instance id. -/
def instanceManagerAdd (m : instanceMap) (inst : Option Instance) : instanceMap :=
  match inst with
  | none => m
  | some i => instanceMapAssign m i.InstanceId i

/-- Embeds `instanceManager.get` (`core/instance.go` lines 84-88). -/
def instanceManagerGet (m : instanceMap) (id : String) : Option Instance := m.lookup id

/-- Embeds `instanceManager.count` (`core/instance.go` lines 90-95): the size
of the catalog map. -/
def instanceManagerCount (m : instanceMap) : ℕ := m.length

/-- The launch template reference of a group
(`autoscaling.LaunchTemplateSpecification` as read by `generateTagsList`). -/
structure LaunchTemplateSpec where
  LaunchTemplateId : String
  Version : String
deriving DecidableEq

/-- Embeds `generateTagsList` (`core/instance.go` lines 964-1011), flattened
to the produced tag list (the single `TagSpecification` with resource type
`instance`). The group name, launch template reference and launch
configuration name live on `i.asg` in Go and are taken as inputs. Note the
misspelled `LaunchConfiguationName` in the exclusion test, verbatim from the
source (line 1006). -/
def generateTagsList (asgName : String) (launchTemplate : Option LaunchTemplateSpec)
    (launchConfigurationName : Option String) (i : Instance) : List Tag :=
  let base : List Tag :=
    [⟨"launched-by-autospotting", "true"⟩,
     ⟨"launched-for-asg", asgName⟩,
     ⟨"launched-for-replacing-instance", i.InstanceId⟩]
  let base := base ++
    match launchTemplate with
    | some lt =>
        [⟨"LaunchTemplateID", lt.LaunchTemplateId⟩, ⟨"LaunchTemplateVersion", lt.Version⟩]
    | none =>
        match launchConfigurationName with
        | some lcn => [⟨"LaunchConfigurationName", lcn⟩]
        | none => []
  base ++ i.Tags.filter fun tag =>
    !(strStartsWith tag.key "aws:") &&
    !(tag.key == "launched-by-autospotting") &&
    !(tag.key == "launched-for-asg") &&
    !(tag.key == "launched-for-replacing-instance") &&
    !(tag.key == "LaunchTemplateID") &&
    !(tag.key == "LaunchTemplateVersion") &&
    !(tag.key == "LaunchConfiguationName")

/-- Embeds `getReplacementTargetInstanceID` (`core/instance.go` lines
1022-1029): value of the first tag keyed `launched-for-replacing-instance`. -/
def getReplacementTargetInstanceID (i : Instance) : Option String :=
  (i.Tags.find? fun tag => tag.key == "launched-for-replacing-instance").map fun t => t.value

/-- The group-level cloud calls issued by `swapWithGroupMember`, in order. -/
inductive Effect where
  | terminateSpot
  | suspendProcesses
  | resumeProcesses
  | setMaxSize (n : ℤ)
  | attachSpot
  | terminateOnDemand
deriving DecidableEq

/-- The environment of one `swapWithGroupMember` run: outcomes of the cloud
calls it makes and the group state it reads. `shouldBeReplaced` is the result
of `odInstance.shouldBeReplacedWithSpot()`, which depends on further cloud
calls and is taken as an oracle. -/
structure SwapEnv where
  scanSucceeds : Bool
  registry : instanceMap
  shouldBeReplaced : Bool
  desiredCapacity : ℤ
  maxSize : ℤ
  attachSucceeds : Bool
  terminateSucceeds : Bool
deriving DecidableEq

/-- Embeds `swapWithGroupMember` (`core/instance.go` lines 1057-1116) as a
trace of effects plus the returned value. Go `defer` semantics: the deferred
`resumeProcesses` is registered before the deferred max-size restoration, so
on every return after the suspension point the trace ends with the
restoration (when max size was raised) followed by `resumeProcesses`. -/
def swapWithGroupMember (i : Instance) (env : SwapEnv) : List Effect × Except String Instance :=
  match getReplacementTargetInstanceID i with
  | none => ([], Except.error ("couldnt find target instance for " ++ i.InstanceId))
  | some odInstanceID =>
    if !env.scanSucceeds then
      ([], Except.error ("target instance " ++ odInstanceID ++ " couldnt be described"))
    else
      match instanceManagerGet env.registry odInstanceID with
      | none => ([], Except.error ("target instance " ++ odInstanceID ++ " is missing"))
      | some odInstance =>
        if !env.shouldBeReplaced then
          ([Effect.terminateSpot],
           Except.error ("target instance " ++ odInstanceID ++ " should not be replaced with spot"))
        else
          let raised := env.desiredCapacity = env.maxSize
          let acquire :=
            [Effect.suspendProcesses] ++
            (if raised then [Effect.setMaxSize (env.maxSize + 1)] else [])
          let release :=
            (if raised then [Effect.setMaxSize env.maxSize] else []) ++
            [Effect.resumeProcesses]
          if !env.attachSucceeds then
            (acquire ++ [Effect.attachSpot, Effect.terminateSpot] ++ release,
             Except.error ("couldnt attach spot instance " ++ i.InstanceId))
          else if !env.terminateSucceeds then
            (acquire ++ [Effect.attachSpot, Effect.terminateOnDemand] ++ release,
             Except.error ("couldnt terminate on-demand instance " ++ odInstanceID))
          else
            (acquire ++ [Effect.attachSpot, Effect.terminateOnDemand] ++ release,
             Except.ok odInstance)

/-- A glob matcher; the concrete examples below use empty allow and deny
lists, so `isAllowed` never consults it. -/
def trivialGlobMatch : String → String → Bool := fun _ _ => true

/-- A concrete instance type for examples: Intel, 1 vCPU, 1 GiB, no GPU, no
instance store, HVM, with the given spot price in `us-east-1a`. -/
def sampleType (name : String) (spotPrice : ℚ) : instanceTypeInformation where
  instanceType := name
  vCPU := 1
  PhysicalProcessor := "Intel Xeon"
  GPU := 0
  pricing := { onDemand := 2, spot := [("us-east-1a", spotPrice)], ebsSurcharge := 0, premium := 0 }
  memory := 1
  virtualizationTypes := ["HVM"]
  hasInstanceStore := false
  instanceStoreDeviceSize := 0
  instanceStoreDeviceCount := 0
  instanceStoreIsSSD := false
  hasEBSOptimization := false
  EBSThroughput := 0

/-- A concrete running on-demand instance for examples, effective price 2. -/
def sampleInstance : Instance where
  InstanceId := "i-source"
  availabilityZone := "us-east-1a"
  EbsOptimized := none
  stateName := "running"
  VirtualizationType := "hvm"
  Tags := []
  typeInfo := sampleType "m1.current" 1
  price := 2

/-- A catalog of two candidate types with equal effective price 1, whose type
names order lexicographically `c2.aa` before `c2.ab`. -/
def tieCatalog : List (String × instanceTypeInformation) :=
  [("c2.aa", sampleType "c2.aa" 1), ("c2.ab", sampleType "c2.ab" 1)]

/-- A one-candidate catalog. -/
def singleCatalog : List (String × instanceTypeInformation) :=
  [("c2.single", sampleType "c2.single" 1)]

/-- The predicate the ranking claim asserts about ties: any two entries of
the result with equal effective price appear in ascending type-name order. -/
def TiesInLexOrder (i : Instance) (l : List instanceTypeInformation) : Prop :=
  l.Pairwise fun a b =>
    i.calculatePrice a = i.calculatePrice b → strLe a.instanceType b.instanceType = true

/-- The on-demand instance a spot replacement targets in the examples. -/
def odTarget : Instance := { sampleInstance with InstanceId := "i-ondemand" }

/-- A spot replacement instance tagged with its target on-demand instance. -/
def spotReplacement : Instance :=
  { sampleInstance with
    InstanceId := "i-spot"
    Tags := [⟨"launched-for-replacing-instance", "i-ondemand"⟩] }

/-- Swap environment where every cloud call succeeds except attaching, and
desired capacity equals max size. -/
def c3Env : SwapEnv where
  scanSucceeds := true
  registry := [("i-ondemand", odTarget)]
  shouldBeReplaced := true
  desiredCapacity := 1
  maxSize := 1
  attachSucceeds := false
  terminateSucceeds := true

/-- Swap environment where describing the target on-demand instance fails. -/
def c5Env : SwapEnv where
  scanSucceeds := false
  registry := []
  shouldBeReplaced := true
  desiredCapacity := 1
  maxSize := 1
  attachSucceeds := true
  terminateSucceeds := true

/-- An instance carrying a source tag with the correctly spelled reserved key
`LaunchConfigurationName`. -/
def staleTaggedInstance : Instance :=
  { sampleInstance with Tags := [⟨"LaunchConfigurationName", "stale-lc"⟩] }

/-- C4 counterexample: a block-device mapping with a missing (nil) EBS volume
type makes the launch template and image conversion functions dereference a
nil pointer (modelled as the outer `none`), so they are not total on such
inputs and do not return the volume type unchanged. -/
theorem C4_counterexample :
    convertLaunchTemplateEBSVolumeType none (some 100) "us-east-1" 200 = none ∧
    convertImageEBSVolumeType none (some 100) "us-east-1" 200 = none :=
  ⟨rfl, rfl⟩

/-- C4 (amended): only the launch configuration conversion is total on a
missing volume type, leaving it unchanged (nil in, nil out); the launch
template and image conversions dereference the missing volume type and panic. -/
theorem C4_nil_volume_type (volumeSize : Option ℤ) (regionName : String)
    (gp2ConversionThreshold : ℤ) :
    convertLaunchConfigurationEBSVolumeType none volumeSize regionName
      gp2ConversionThreshold = some none ∧
    convertLaunchTemplateEBSVolumeType none volumeSize regionName
      gp2ConversionThreshold = none ∧
    convertImageEBSVolumeType none volumeSize regionName
      gp2ConversionThreshold = none :=
  ⟨rfl, rfl, rfl⟩

/-- C6: evaluating `generateTagsList` at an instance whose source tags contain
the correctly spelled reserved key `LaunchConfigurationName` shows the tag is
copied to the replacement: the exclusion list of the source misspells the key
as `LaunchConfiguationName`, so the claimed exclusion fails. -/
theorem C6_reserved_key_copied :
    Tag.mk "LaunchConfigurationName" "stale-lc" ∈
      generateTagsList "my-asg" none none staleTaggedInstance := by
  decide

/-- C7: the bid pricer returns the base on-demand price under the normal
policy and `min(base, (spot - premium) * (1 + B/100) + premium)` under the
aggressive policy, and the aggressive bid never exceeds the base on-demand
price for non-negative inputs. -/
theorem C7_getPriceToBid (B baseOnDemandPrice currentSpotPrice spotPremium : ℚ) :
    getPriceToBid "normal" B baseOnDemandPrice currentSpotPrice spotPremium =
      baseOnDemandPrice ∧
    getPriceToBid "aggressive" B baseOnDemandPrice currentSpotPrice spotPremium =
      min baseOnDemandPrice
        ((currentSpotPrice - spotPremium) * (1 + B / 100) + spotPremium) ∧
    (0 ≤ baseOnDemandPrice → 0 ≤ currentSpotPrice → 0 ≤ spotPremium → 0 ≤ B →
      getPriceToBid "aggressive" B baseOnDemandPrice currentSpotPrice spotPremium ≤
        baseOnDemandPrice) := by
  refine ⟨rfl, ?_, ?_⟩
  · unfold getPriceToBid
    rw [if_neg (by decide)]
  · intro _ _ _ _
    unfold getPriceToBid
    rw [if_neg (by decide)]
    exact min_le_left _ _

/-- C7 witness: the bid pricer evaluated at concrete prices. -/
theorem C7_getPriceToBid_witness :
    getPriceToBid "normal" 10 3 1 0 = 3 ∧
    getPriceToBid "aggressive" 10 3 1 0 = min 3 ((1 - 0) * (1 + 10 / 100) + 0) ∧
    getPriceToBid "aggressive" 10 3 1 0 ≤ 3 := by
  have h := C7_getPriceToBid 10 3 1 0
  exact ⟨h.1, h.2.1, h.2.2 (by decide) (by decide) (by decide) (by decide)⟩

/-- C8: the launch configuration volume-type rewrite is idempotent — feeding
its own output back in (for the same volume size, region and threshold)
returns that output unchanged, with panics propagated by `bind`. -/
theorem C8_volume_rewrite_idempotent (volumeType : Option String)
    (volumeSize : Option ℤ) (regionName : String) (gp2ConversionThreshold : ℤ) :
    (convertLaunchConfigurationEBSVolumeType volumeType volumeSize regionName
        gp2ConversionThreshold).bind
      (fun vt2 => convertLaunchConfigurationEBSVolumeType vt2 volumeSize regionName
        gp2ConversionThreshold) =
    convertLaunchConfigurationEBSVolumeType volumeType volumeSize regionName
      gp2ConversionThreshold := by
  rcases volumeType with _ | vt
  · rfl
  · by_cases hio : vt = "io1"
    · subst hio
      by_cases hr : supportedIO2region regionName = true
      · simp [convertLaunchConfigurationEBSVolumeType, hr]
      · simp [convertLaunchConfigurationEBSVolumeType, hr]
    · by_cases hgp : vt = "gp2"
      · subst hgp
        rcases volumeSize with _ | sz
        · simp [convertLaunchConfigurationEBSVolumeType]
        · by_cases hsz : sz ≤ gp2ConversionThreshold
          · simp [convertLaunchConfigurationEBSVolumeType, hsz]
          · simp [convertLaunchConfigurationEBSVolumeType, hsz]
      · simp [convertLaunchConfigurationEBSVolumeType, hio, hgp]

/-- C9: terminating an instance whose state is `terminated` or
`shutting-down` returns an error and issues no cloud `TerminateInstances`
call; in any other state exactly one call is issued for that instance id and
its error value is returned. -/
theorem C9_terminate (i : Instance) (e : Option String) :
    ((i.stateName = "terminated" ∨ i.stateName = "shutting-down") →
      terminate i e = ([], some ("cant terminate " ++ i.InstanceId))) ∧
    (i.stateName ≠ "terminated" → i.stateName ≠ "shutting-down" →
      terminate i e = ([i.InstanceId], e)) := by
  constructor
  · intro h
    rcases h with h | h <;> simp [terminate, canTerminate, h]
  · intro h1 h2
    simp [terminate, canTerminate, h1, h2]

/-- C9 witness: a terminated instance is refused, a running one issues the
single cloud call. -/
theorem C9_terminate_witness :
    terminate { sampleInstance with stateName := "terminated" } none =
      ([], some ("cant terminate " ++ "i-source")) ∧
    terminate sampleInstance none = (["i-source"], none) := by
  have h1 := C9_terminate { sampleInstance with stateName := "terminated" } none
  have h2 := C9_terminate sampleInstance none
  exact ⟨h1.1 (Or.inl rfl), h2.2 (by decide) (by decide)⟩

/-- C10: adding a nil instance record leaves the registry untouched — every
subsequent get is unchanged and so is the count. -/
theorem C10_add_nil (m : instanceMap) (id : String) :
    instanceManagerGet (instanceManagerAdd m none) id = instanceManagerGet m id ∧
    instanceManagerCount (instanceManagerAdd m none) = instanceManagerCount m :=
  ⟨rfl, rfl⟩

/-- C1 counterexample: a candidate whose spot price in the availability zone
is negative passes every predicate of the compatibility filter (the price
predicate only rejects a price equal to 0), yet its effective price is not
positive. -/
theorem C1_counterexample :
    acceptsCandidate trivialGlobMatch sampleInstance [] [] 0 (sampleType "c1.neg" (-1)) = true ∧
    ¬ (0 < sampleInstance.calculatePrice (sampleType "c1.neg" (-1))) := by
  constructor
  · decide
  · decide

/-- C1 (amended): every candidate accepted by the compatibility filter has
effective price `p` with `p ≠ 0` and `p ≤ I.price`; `p > 0` additionally
holds whenever the candidate spot price in the instance availability zone and
its EBS surcharge are non-negative. -/
theorem C1_filter_price_bounds (globMatch : String → String → Bool) (i : Instance)
    (allowedList disallowedList : List String) (attachedVolumesNum : ℤ)
    (cand : instanceTypeInformation)
    (h : acceptsCandidate globMatch i allowedList disallowedList attachedVolumesNum cand = true) :
    i.calculatePrice cand ≠ 0 ∧ i.calculatePrice cand ≤ i.price ∧
    (0 ≤ cand.pricing.spotAt i.availabilityZone → 0 ≤ cand.pricing.ebsSurcharge →
      0 < i.calculatePrice cand) := by
  simp only [acceptsCandidate, Bool.and_eq_true] at h
  have hp : i.isPriceCompatible (i.calculatePrice cand) = true := h.1.1.1.1.2
  have hpc : i.calculatePrice cand ≠ 0 ∧ i.calculatePrice cand ≤ i.price := by
    unfold Instance.isPriceCompatible at hp
    by_cases h0 : i.calculatePrice cand = 0
    · simp [h0] at hp
    · by_cases h1 : i.calculatePrice cand ≤ i.price
      · exact ⟨h0, h1⟩
      · simp [h0, h1] at hp
  refine ⟨hpc.1, hpc.2, ?_⟩
  intro hs hsur
  have hne := hpc.1
  unfold Instance.calculatePrice at hne ⊢
  by_cases he : i.EbsOptimized = some true
  · simp only [he, if_pos] at hne ⊢
    exact lt_of_le_of_ne (add_nonneg hs hsur) (Ne.symm hne)
  · simp only [he, if_neg, if_false] at hne ⊢
    exact lt_of_le_of_ne hs (Ne.symm hne)

/-- C1 witness: a candidate with positive spot price accepted by the filter,
with the price bounds instantiated. -/
theorem C1_filter_price_bounds_witness :
    sampleInstance.calculatePrice (sampleType "c1.pos" 1) ≠ 0 ∧
    sampleInstance.calculatePrice (sampleType "c1.pos" 1) ≤ sampleInstance.price ∧
    0 < sampleInstance.calculatePrice (sampleType "c1.pos" 1) := by
  have h := C1_filter_price_bounds trivialGlobMatch sampleInstance [] [] 0
    (sampleType "c1.pos" 1) (by decide)
  exact ⟨h.1, h.2.1, h.2.2 (by decide) (by decide)⟩

/-- Every entry the candidate loop accepts carries the price computed by
`calculatePrice` for its type information. -/
theorem acceptedCandidates_price (globMatch : String → String → Bool) (i : Instance)
    (allowedList disallowedList : List String) (lcMappings ltMappings : ℤ)
    (catalog : List (String × instanceTypeInformation)) :
    ∀ a ∈ acceptedCandidates globMatch i allowedList disallowedList lcMappings ltMappings
        catalog,
      a.price = i.calculatePrice a.instanceTI := by
  intro a ha
  simp only [acceptedCandidates, List.mem_filterMap] at ha
  obtain ⟨k, -, hk⟩ := ha
  split at hk
  · injection hk with h
    subst h
    rfl
  · exact absurd hk (by simp)

/-- C2 counterexample: with two accepted candidates of equal effective price,
whose type names are `c2.aa` and `c2.ab`, the result `[c2.ab, c2.aa]` is a
permitted outcome of the sort (the comparator only inspects prices and Go
`sort.Slice` is not stable), and it violates the claimed lexicographic
ordering of ties. -/
theorem C2_counterexample :
    getCompatibleResult trivialGlobMatch sampleInstance [] [] 0 0 tieCatalog
      (Except.ok [sampleType "c2.ab" 1, sampleType "c2.aa" 1]) ∧
    ¬ TiesInLexOrder sampleInstance [sampleType "c2.ab" 1, sampleType "c2.aa" 1] := by
  constructor
  · unfold getCompatibleResult
    have hacc : acceptedCandidates trivialGlobMatch sampleInstance [] [] 0 0 tieCatalog =
        [⟨sampleType "c2.aa" 1, 1⟩, ⟨sampleType "c2.ab" 1, 1⟩] := by decide
    rw [hacc, if_neg (by decide)]
    exact ⟨[⟨sampleType "c2.ab" 1, 1⟩, ⟨sampleType "c2.aa" 1, 1⟩], ⟨by decide, by decide⟩, rfl⟩
  · unfold TiesInLexOrder
    decide

/-- C2 (amended): every list the function can return is a permutation of the
accepted candidates sorted non-decreasingly by effective price; the relative
order of equal-priced candidates is unspecified. -/
theorem C2_ranker_sorted (globMatch : String → String → Bool) (i : Instance)
    (allowedList disallowedList : List String) (lcMappings ltMappings : ℤ)
    (catalog : List (String × instanceTypeInformation))
    (out : List instanceTypeInformation)
    (h : getCompatibleResult globMatch i allowedList disallowedList lcMappings ltMappings
      catalog (Except.ok out)) :
    List.Perm ((acceptedCandidates globMatch i allowedList disallowedList lcMappings
        ltMappings catalog).map (fun a => a.instanceTI)) out ∧
    out.Pairwise fun a b => i.calculatePrice a ≤ i.calculatePrice b := by
  unfold getCompatibleResult at h
  split at h
  · simp at h
  · obtain ⟨sorted, ⟨hperm, hpw⟩, heq⟩ := h
    simp only [Except.ok.injEq] at heq
    subst heq
    refine ⟨hperm.map _, ?_⟩
    refine List.pairwise_map.mpr ?_
    refine hpw.imp_of_mem ?_
    intro a b ha hb hle
    rw [← acceptedCandidates_price globMatch i allowedList disallowedList lcMappings
          ltMappings catalog a (hperm.symm.subset ha),
        ← acceptedCandidates_price globMatch i allowedList disallowedList lcMappings
          ltMappings catalog b (hperm.symm.subset hb)]
    exact hle

/-- C2 witness: the sorted-result property instantiated on a one-candidate
catalog. -/
theorem C2_ranker_sorted_witness :
    List.Perm ((acceptedCandidates trivialGlobMatch sampleInstance [] [] 0 0
        singleCatalog).map (fun a => a.instanceTI)) [sampleType "c2.single" 1] ∧
    List.Pairwise
      (fun a b => sampleInstance.calculatePrice a ≤ sampleInstance.calculatePrice b)
      [sampleType "c2.single" 1] := by
  refine C2_ranker_sorted trivialGlobMatch sampleInstance [] [] 0 0 singleCatalog _ ?_
  unfold getCompatibleResult
  rw [if_neg (by decide)]
  exact ⟨[⟨sampleType "c2.single" 1, 1⟩], ⟨by decide, by decide⟩, rfl⟩

/-- Classification of swap traces: either the run never reaches the
suspension of group processes, or its trace ends with their resumption and,
when desired capacity equalled max size, contains both the raise and the
restoration of max size. -/
theorem swap_trace_classify (i : Instance) (env : SwapEnv) :
    Effect.suspendProcesses ∉ (swapWithGroupMember i env).1 ∨
    ((swapWithGroupMember i env).1.getLast? = some Effect.resumeProcesses ∧
     (env.desiredCapacity = env.maxSize →
       Effect.setMaxSize (env.maxSize + 1) ∈ (swapWithGroupMember i env).1 ∧
       Effect.setMaxSize env.maxSize ∈ (swapWithGroupMember i env).1)) := by
  rcases hod : getReplacementTargetInstanceID i with _ | odID
  · exact Or.inl (by simp [swapWithGroupMember, hod])
  · rcases hs : env.scanSucceeds with _ | _
    · exact Or.inl (by simp [swapWithGroupMember, hod, hs])
    · rcases hg : instanceManagerGet env.registry odID with _ | od
      · exact Or.inl (by simp [swapWithGroupMember, hod, hs, hg])
      · rcases hr : env.shouldBeReplaced with _ | _
        · exact Or.inl (by simp [swapWithGroupMember, hod, hs, hg, hr])
        · rcases ha : env.attachSucceeds with _ | _
          · refine Or.inr ⟨?_, fun hd => ⟨?_, ?_⟩⟩
            · by_cases hd : env.desiredCapacity = env.maxSize <;>
                simp [swapWithGroupMember, hod, hs, hg, hr, ha, hd,
                  List.getLast?_cons_cons]
            · simp [swapWithGroupMember, hod, hs, hg, hr, ha, hd]
            · simp [swapWithGroupMember, hod, hs, hg, hr, ha, hd]
          · rcases ht : env.terminateSucceeds with _ | _
            · refine Or.inr ⟨?_, fun hd => ⟨?_, ?_⟩⟩
              · by_cases hd : env.desiredCapacity = env.maxSize <;>
                  simp [swapWithGroupMember, hod, hs, hg, hr, ha, ht, hd,
                    List.getLast?_cons_cons]
              · simp [swapWithGroupMember, hod, hs, hg, hr, ha, ht, hd]
              · simp [swapWithGroupMember, hod, hs, hg, hr, ha, ht, hd]
            · refine Or.inr ⟨?_, fun hd => ⟨?_, ?_⟩⟩
              · by_cases hd : env.desiredCapacity = env.maxSize <;>
                  simp [swapWithGroupMember, hod, hs, hg, hr, ha, ht, hd,
                    List.getLast?_cons_cons]
              · simp [swapWithGroupMember, hod, hs, hg, hr, ha, ht, hd]
              · simp [swapWithGroupMember, hod, hs, hg, hr, ha, ht, hd]

/-- C3: on every run of the swap whose trace reaches the suspension of the
group lifecycle processes, the trace ends with their resumption, and when
desired capacity equalled max size the temporary raise of max size is paired
with its restoration — on the success, attach-failure and terminate-failure
paths alike. -/
theorem C3_swap_releases (i : Instance) (env : SwapEnv)
    (h : Effect.suspendProcesses ∈ (swapWithGroupMember i env).1) :
    (swapWithGroupMember i env).1.getLast? = some Effect.resumeProcesses ∧
    (env.desiredCapacity = env.maxSize →
      Effect.setMaxSize (env.maxSize + 1) ∈ (swapWithGroupMember i env).1 ∧
      Effect.setMaxSize env.maxSize ∈ (swapWithGroupMember i env).1) :=
  (swap_trace_classify i env).resolve_left (not_not_intro h)

/-- C3 witness: a concrete attach-failure run with desired capacity at max
size: processes are resumed last and max size is raised and restored. -/
theorem C3_swap_releases_witness :
    (swapWithGroupMember spotReplacement c3Env).1.getLast? = some Effect.resumeProcesses ∧
    (Effect.setMaxSize (c3Env.maxSize + 1) ∈ (swapWithGroupMember spotReplacement c3Env).1 ∧
     Effect.setMaxSize c3Env.maxSize ∈ (swapWithGroupMember spotReplacement c3Env).1) := by
  have h := C3_swap_releases spotReplacement c3Env (by decide)
  exact ⟨h.1, h.2 rfl⟩

/-- C5 counterexample: when describing the target on-demand instance fails,
the swap returns an error but its trace contains no termination of the spot
replacement instance — contrary to the claim that the spot replacement is
terminated on this path. -/
theorem C5_counterexample :
    (swapWithGroupMember spotReplacement c5Env).2 =
      Except.error "target instance i-ondemand couldnt be described" ∧
    Effect.terminateSpot ∉ (swapWithGroupMember spotReplacement c5Env).1 := by
  refine ⟨rfl, ?_⟩
  decide

/-- C5 (amended): whenever the target on-demand instance cannot be described
or is absent from the registry, the swap returns an error without issuing any
cloud call at all — in particular without terminating the spot replacement
instance. -/
theorem C5_swap_missing_target (i : Instance) (env : SwapEnv) (odID : String)
    (hod : getReplacementTargetInstanceID i = some odID)
    (hmiss : env.scanSucceeds = false ∨ instanceManagerGet env.registry odID = none) :
    (∃ msg, (swapWithGroupMember i env).2 = Except.error msg) ∧
    (swapWithGroupMember i env).1 = [] := by
  rcases hmiss with hs | hg
  · constructor
    · exact ⟨"target instance " ++ odID ++ " couldnt be described",
        by simp [swapWithGroupMember, hod, hs]⟩
    · simp [swapWithGroupMember, hod, hs]
  · rcases hs : env.scanSucceeds with _ | _
    · constructor
      · exact ⟨"target instance " ++ odID ++ " couldnt be described",
          by simp [swapWithGroupMember, hod, hs]⟩
      · simp [swapWithGroupMember, hod, hs]
    · constructor
      · exact ⟨"target instance " ++ odID ++ " is missing",
          by simp [swapWithGroupMember, hod, hs, hg]⟩
      · simp [swapWithGroupMember, hod, hs, hg]

/-- C5 witness: the amended behavior at a concrete failing describe call. -/
theorem C5_swap_missing_target_witness :
    (∃ msg, (swapWithGroupMember spotReplacement c5Env).2 = Except.error msg) ∧
    (swapWithGroupMember spotReplacement c5Env).1 = [] :=
  C5_swap_missing_target spotReplacement c5Env "i-ondemand" (by decide) (Or.inl rfl)
